import Mathlib

/-!
Verification of the viewport-session component of the PBR ray-tracing demo
(src/App.tsx, `RayTracingSimulation`).  The TypeScript code builds a Three.js
scene (two spheres, HDRI environment, lil-gui panel), runs an animation loop
and tears everything down on unmount.  JavaScript numbers are modelled as
real numbers; textures are identified by natural-number ids; the parts of the
mutable library objects that the component reads or writes are carried in an
explicit `Session` record, and each callback of the component becomes a
function `Session → Session`.
-/

/-- A Three.js `Euler` rotation: the three per-axis angles, in radians. -/
structure Euler where
  x : ℝ
  y : ℝ
  z : ℝ

/-- The fields of a `THREE.MeshStandardMaterial` that the component touches:
`color` (an RGB hex integer), `metalness` and `roughness`. -/
structure Material where
  color : ℕ
  metalness : ℝ
  roughness : ℝ

/-- A sphere mesh: its material and its position. -/
structure Mesh where
  material : Material
  posX : ℝ
  posY : ℝ
  posZ : ℝ

/-- The fields of the `THREE.WebGLRenderer` that the component sets:
drawing-buffer size, device pixel ratio and tone-mapping exposure. -/
structure Renderer where
  width : ℝ
  height : ℝ
  pixelRatio : ℝ
  toneMappingExposure : ℝ

/-- The fields of the `THREE.Scene` that the component touches: the
background and environment texture slots (texture ids, `none` until the HDRI
load resolves) and their rotations. -/
structure Scene where
  background : Option ℕ
  environment : Option ℕ
  backgroundRotation : Euler
  environmentRotation : Euler

/-- The whole viewport-session state: scene, camera aspect, renderer, the two
spheres, the closure variable `environmentTexture`, the React `loading`
flag, the console error log, whether the effect cleanup has run, and how many
times `environmentTexture.dispose()` has been called. -/
structure Session where
  scene : Scene
  cameraAspect : ℝ
  renderer : Renderer
  sphere1 : Mesh
  sphere2 : Mesh
  environmentTexture : Option ℕ
  loading : Bool
  errorLog : List String
  tornDown : Bool
  envTextureDisposeCount : ℕ

/-- Session initialisation (src/App.tsx lines 26–93): camera aspect
`innerWidth / innerHeight`, renderer sized to the viewport with
`setPixelRatio(Math.min(window.devicePixelRatio, 2))` and
`toneMappingExposure = 1.0`; left sphere silver
(`color 0xffffff, metalness 1.0, roughness 0.05`) at `x = -1.2`, right sphere
gold (`color 0xffaa00, metalness 1.0, roughness 0.2`) at `x = 1.2`; no
environment texture yet and the loading flag set. -/
noncomputable def initSession (devicePixelRatio viewportW viewportH : ℝ) : Session where
  scene :=
    { background := none
      environment := none
      backgroundRotation := ⟨0, 0, 0⟩
      environmentRotation := ⟨0, 0, 0⟩ }
  cameraAspect := viewportW / viewportH
  renderer :=
    { width := viewportW
      height := viewportH
      pixelRatio := min devicePixelRatio 2
      toneMappingExposure := 1 }
  sphere1 :=
    { material := { color := 0xffffff, metalness := 1, roughness := 0.05 }
      posX := -1.2, posY := 0, posZ := 0 }
  sphere2 :=
    { material := { color := 0xffaa00, metalness := 1, roughness := 0.2 }
      posX := 1.2, posY := 0, posZ := 0 }
  environmentTexture := none
  loading := true
  errorLog := []
  tornDown := false
  envTextureDisposeCount := 0

/-- The `hdriLoader.load` success callback (src/App.tsx lines 58–64): assign
the texture as `scene.background` and `scene.environment`, store it in the
closure variable `environmentTexture`, and call `setLoading(false)`.  The
callback performs no check of whether the effect has been cleaned up. -/
def hdriOnLoad (texture : ℕ) (s : Session) : Session :=
  { s with
    scene :=
      { s.scene with background := some texture, environment := some texture }
    environmentTexture := some texture
    loading := false }

/-- The `hdriLoader.load` error callback (src/App.tsx lines 66–69): log the
error and call `setLoading(false)`; nothing else is touched. -/
def hdriOnError (err : String) (s : Session) : Session :=
  { s with
    errorLog := s.errorLog ++ [err]
    loading := false }

/-- One step of the `animate` loop at clock time `t` seconds (src/App.tsx
lines 130–140): `sphere1.position.y = Math.sin(time) * 0.1` and
`sphere2.position.y = Math.sin(time + 2) * 0.1`. -/
noncomputable def animateStep (t : ℝ) (s : Session) : Session :=
  { s with
    sphere1 := { s.sphere1 with posY := Real.sin t * 0.1 }
    sphere2 := { s.sphere2 with posY := Real.sin (t + 2) * 0.1 } }

/-- The `Brightness` control's `onChange` handler (src/App.tsx lines
114–118): `renderer.toneMappingExposure = v`. -/
def setExposure (v : ℝ) (s : Session) : Session :=
  { s with renderer := { s.renderer with toneMappingExposure := v } }

/-- The `Rotate World` control's `onChange` handler (src/App.tsx lines
120–126): convert degrees to radians and assign the result to
`scene.backgroundRotation.y` and `scene.environmentRotation.y`. -/
noncomputable def setRotation (d : ℝ) (s : Session) : Session :=
  let radians : ℝ := d * (Real.pi / 180)
  { s with
    scene :=
      { s.scene with
        backgroundRotation := { s.scene.backgroundRotation with y := radians }
        environmentRotation :=
          { s.scene.environmentRotation with y := radians } } }

/-- The left sphere's `Metalness` slider (src/App.tsx line 102):
`folder1.add(material1, 'metalness', 0, 1)` writes the slider value straight
into `material1.metalness`. -/
def setMetalness1 (v : ℝ) (s : Session) : Session :=
  { s with
    sphere1 :=
      { s.sphere1 with
        material := { s.sphere1.material with metalness := v } } }

/-- The `onWindowResize` handler (src/App.tsx lines 145–149):
`camera.aspect = innerWidth / innerHeight` and
`renderer.setSize(innerWidth, innerHeight)`. -/
noncomputable def onWindowResize (w h : ℝ) (s : Session) : Session :=
  { s with
    cameraAspect := w / h
    renderer := { s.renderer with width := w, height := h } }

/-- The effect cleanup (src/App.tsx lines 153–170): cancel the animation
frame, dispose resources, and run `if (environmentTexture)
environmentTexture.dispose()` — the texture is disposed exactly when the
closure variable is non-null at cleanup time. -/
def teardown (s : Session) : Session :=
  { s with
    tornDown := true
    envTextureDisposeCount :=
      s.envTextureDisposeCount + (if s.environmentTexture.isSome then 1 else 0) }

/-- Claim C1 — the code violates it: teardown before load completion indeed
disposes nothing (`envTextureDisposeCount` stays 0), but the load callback
that arrives after teardown is NOT a no-op: `hdriOnLoad` carries no liveness
check, so it still writes the texture into `scene.background`,
`scene.environment` and the closure variable of the already-torn-down
session (evaluated here at texture id 7 against a fresh session). -/
theorem c1_late_load_callback_mutates :
    (teardown (initSession 1 800 600)).envTextureDisposeCount = 0 ∧
    (teardown (initSession 1 800 600)).scene.background = none ∧
    (hdriOnLoad 7 (teardown (initSession 1 800 600))).scene.background = some 7 ∧
    (hdriOnLoad 7 (teardown (initSession 1 800 600))).scene.environment = some 7 ∧
    (hdriOnLoad 7 (teardown (initSession 1 800 600))).environmentTexture = some 7 ∧
    (teardown (hdriOnLoad 7 (initSession 1 800 600))).envTextureDisposeCount = 1 := by
  simp [hdriOnLoad, teardown, initSession]

/-- Claim C2: at every clock time `t` the animate step sets the left sphere's
vertical offset to `0.1 · sin t` and the right sphere's to `0.1 · sin (t + 2)`
(amplitude `a = 0.1`, phase `φ = 2`), and both offsets lie in `[-0.1, 0.1]`. -/
theorem c2_animate_sinusoid (t : ℝ) (s : Session) :
    (animateStep t s).sphere1.posY = 0.1 * Real.sin t ∧
    (animateStep t s).sphere2.posY = 0.1 * Real.sin (t + 2) ∧
    -0.1 ≤ (animateStep t s).sphere1.posY ∧
    (animateStep t s).sphere1.posY ≤ 0.1 ∧
    -0.1 ≤ (animateStep t s).sphere2.posY ∧
    (animateStep t s).sphere2.posY ≤ 0.1 := by
  have hs1 : (animateStep t s).sphere1.posY = Real.sin t * 0.1 := rfl
  have hs2 : (animateStep t s).sphere2.posY = Real.sin (t + 2) * 0.1 := rfl
  refine ⟨by rw [hs1]; ring, by rw [hs2]; ring, ?_, ?_, ?_, ?_⟩ <;>
    simp only [hs1, hs2] <;>
    nlinarith [Real.sin_le_one t, Real.neg_one_le_sin t,
      Real.sin_le_one (t + 2), Real.neg_one_le_sin (t + 2)]

/-- Claim C3: the brightness handler writes the control value `v ∈ [0, 2]`
verbatim into the renderer's tone-mapping exposure, and applying the same
value a second time still leaves the exposure at `v`. -/
theorem c3_exposure_identity (v : ℝ) (h0 : 0 ≤ v) (h2 : v ≤ 2) (s : Session) :
    (setExposure v s).renderer.toneMappingExposure = v ∧
    (setExposure v (setExposure v s)).renderer.toneMappingExposure = v := by
  simp [setExposure]

/-- Witness for C3 at `v = 1.5`. -/
theorem c3_exposure_identity_witness :
    (setExposure 1.5 (initSession 1 800 600)).renderer.toneMappingExposure
      = 1.5 ∧
    (setExposure 1.5
        (setExposure 1.5 (initSession 1 800 600))).renderer.toneMappingExposure
      = 1.5 :=
  c3_exposure_identity 1.5 (by norm_num) (by norm_num) (initSession 1 800 600)

/-- Claim C4: the rotation handler converts the control value `d ∈ [0, 360]`
to `d · π / 180` radians and applies that same angle to both the background
rotation and the environment rotation, so the two applied rotations agree. -/
theorem c4_rotation_radians (d : ℝ) (h0 : 0 ≤ d) (h360 : d ≤ 360) (s : Session) :
    (setRotation d s).scene.backgroundRotation.y = d * (Real.pi / 180) ∧
    (setRotation d s).scene.environmentRotation.y = d * (Real.pi / 180) ∧
    (setRotation d s).scene.backgroundRotation.y
      = (setRotation d s).scene.environmentRotation.y := by
  simp [setRotation]

/-- Witness for C4 at `d = 180`. -/
theorem c4_rotation_radians_witness :
    (setRotation 180 (initSession 1 800 600)).scene.backgroundRotation.y
      = 180 * (Real.pi / 180) ∧
    (setRotation 180 (initSession 1 800 600)).scene.environmentRotation.y
      = 180 * (Real.pi / 180) ∧
    (setRotation 180 (initSession 1 800 600)).scene.backgroundRotation.y
      = (setRotation 180 (initSession 1 800 600)).scene.environmentRotation.y :=
  c4_rotation_radians 180 (by norm_num) (by norm_num) (initSession 1 800 600)

/-- Claim C5: the resize handler is idempotent — running it twice with the
same viewport dimensions leaves the same camera aspect ratio and the same
renderer size as running it once. -/
theorem c5_resize_idempotent (w h : ℝ) (s : Session) :
    (onWindowResize w h (onWindowResize w h s)).cameraAspect
      = (onWindowResize w h s).cameraAspect ∧
    (onWindowResize w h (onWindowResize w h s)).renderer.width
      = (onWindowResize w h s).renderer.width ∧
    (onWindowResize w h (onWindowResize w h s)).renderer.height
      = (onWindowResize w h s).renderer.height := by
  simp [onWindowResize]

/-- Claim C6: setting the left sphere's metalness through its slider to
`x ∈ [0, 1]` makes the left material's metalness read back exactly `x` while
the right sphere — its material and every field of it included — is
untouched. -/
theorem c6_metalness_left_only (x : ℝ) (h0 : 0 ≤ x) (h1 : x ≤ 1) (s : Session) :
    (setMetalness1 x s).sphere1.material.metalness = x ∧
    (setMetalness1 x s).sphere2 = s.sphere2 ∧
    (setMetalness1 x s).sphere2.material.metalness
      = s.sphere2.material.metalness := by
  simp [setMetalness1]

/-- Witness for C6: the end-to-end scenario — fresh session, simulated
successful load of texture 7, then left metalness set to 0.3. -/
theorem c6_metalness_left_only_witness :
    (setMetalness1 0.3
        (hdriOnLoad 7 (initSession 1 800 600))).sphere1.material.metalness
      = 0.3 ∧
    (setMetalness1 0.3 (hdriOnLoad 7 (initSession 1 800 600))).sphere2
      = (hdriOnLoad 7 (initSession 1 800 600)).sphere2 ∧
    (setMetalness1 0.3
        (hdriOnLoad 7 (initSession 1 800 600))).sphere2.material.metalness
      = (hdriOnLoad 7 (initSession 1 800 600)).sphere2.material.metalness :=
  c6_metalness_left_only 0.3 (by norm_num) (by norm_num)
    (hdriOnLoad 7 (initSession 1 800 600))

/-- Claim C7: for every device pixel ratio `r ≥ 0` the pixel ratio applied at
initialisation is `min r 2`, hence never exceeds 2. -/
theorem c7_pixel_ratio_capped (r w h : ℝ) (hr : 0 ≤ r) :
    (initSession r w h).renderer.pixelRatio = min r 2 ∧
    (initSession r w h).renderer.pixelRatio ≤ 2 := by
  refine ⟨rfl, ?_⟩
  have : (initSession r w h).renderer.pixelRatio = min r 2 := rfl
  rw [this]
  exact min_le_right r 2

/-- Witness for C7 at `r = 3`: the applied ratio is `min 3 2 = 2 ≤ 2`. -/
theorem c7_pixel_ratio_capped_witness :
    (initSession 3 800 600).renderer.pixelRatio = min 3 2 ∧
    (initSession 3 800 600).renderer.pixelRatio ≤ 2 :=
  c7_pixel_ratio_capped 3 800 600 (by norm_num)

/-- Claim C8: on a failed environment fetch the error callback appends the
error to the log and clears the loading flag, leaving every other part of the
session state — scene (background, environment, rotations), stored
environment texture, renderer, camera, spheres, teardown flag and dispose
count — unchanged. -/
theorem c8_error_path (e : String) (s : Session) :
    (hdriOnError e s).loading = false ∧
    (hdriOnError e s).errorLog = s.errorLog ++ [e] ∧
    (hdriOnError e s).scene = s.scene ∧
    (hdriOnError e s).environmentTexture = s.environmentTexture ∧
    (hdriOnError e s).renderer = s.renderer ∧
    (hdriOnError e s).cameraAspect = s.cameraAspect ∧
    (hdriOnError e s).sphere1 = s.sphere1 ∧
    (hdriOnError e s).sphere2 = s.sphere2 ∧
    (hdriOnError e s).tornDown = s.tornDown ∧
    (hdriOnError e s).envTextureDisposeCount = s.envTextureDisposeCount := by
  simp [hdriOnError]

/-- Claim C9: the initial session values — left material metalness 1.0,
roughness 0.05, colour `0xffffff`; right material metalness 1.0, roughness
0.2, colour `0xffaa00`; sphere x-positions -1.2 and 1.2; tone-mapping
exposure 1.0. -/
theorem c9_initial_values (r w h : ℝ) :
    (initSession r w h).sphere1.material.metalness = 1 ∧
    (initSession r w h).sphere1.material.roughness = 0.05 ∧
    (initSession r w h).sphere1.material.color = 0xffffff ∧
    (initSession r w h).sphere2.material.metalness = 1 ∧
    (initSession r w h).sphere2.material.roughness = 0.2 ∧
    (initSession r w h).sphere2.material.color = 0xffaa00 ∧
    (initSession r w h).sphere1.posX = -1.2 ∧
    (initSession r w h).sphere2.posX = 1.2 ∧
    (initSession r w h).renderer.toneMappingExposure = 1 := by
  refine ⟨rfl, rfl, rfl, rfl, rfl, rfl, rfl, rfl, rfl⟩

/-- Claim C10: the rotation handler mutates only the `y` components of the
background and environment rotations; the `x` and `z` components of both, the
texture slots, and every other session field are unchanged. -/
theorem c10_rotation_touches_only_y (d : ℝ) (s : Session) :
    (setRotation d s).scene.backgroundRotation.x
      = s.scene.backgroundRotation.x ∧
    (setRotation d s).scene.backgroundRotation.z
      = s.scene.backgroundRotation.z ∧
    (setRotation d s).scene.environmentRotation.x
      = s.scene.environmentRotation.x ∧
    (setRotation d s).scene.environmentRotation.z
      = s.scene.environmentRotation.z ∧
    (setRotation d s).scene.background = s.scene.background ∧
    (setRotation d s).scene.environment = s.scene.environment ∧
    (setRotation d s).cameraAspect = s.cameraAspect ∧
    (setRotation d s).renderer = s.renderer ∧
    (setRotation d s).sphere1 = s.sphere1 ∧
    (setRotation d s).sphere2 = s.sphere2 ∧
    (setRotation d s).environmentTexture = s.environmentTexture ∧
    (setRotation d s).loading = s.loading ∧
    (setRotation d s).errorLog = s.errorLog ∧
    (setRotation d s).tornDown = s.tornDown ∧
    (setRotation d s).envTextureDisposeCount = s.envTextureDisposeCount := by
  simp [setRotation]
